import Mathlib

/-!
# Verification of the eye-rs v4l2 HAL core

Shallow embedding of the v4l2 backend of the eye-rs HAL:
`src/hal/v4l2/device.rs` (device operations) and
`eye-hal/src/platform/v4l2/stream.rs` (stream polling), together with the
format/control model they use.  The V4L2 platform (the external `v4l`
crate / kernel subsystem) is modelled as a record of enumeration results
and call outcomes; machine integers are `Nat`/`Int` with explicit
wrapping where the source casts.
-/

namespace Eye

/-! ## Errors

The source uses `std::io::Error`; the core constructs errors with
`io::Error::new(io::ErrorKind::Other, msg)` and propagates platform
errors unchanged via `?`. -/

/-- `std::io::Error` as the source observes it: either an OS-level error
code coming from the platform, or an `ErrorKind::Other` error with a
message, as built by `io::Error::new(io::ErrorKind::Other, msg)`. -/
inductive IoError where
  | os (code : Nat)
  | other (msg : String)
deriving DecidableEq, Repr

instance (ε α : Type) [DecidableEq ε] [DecidableEq α] :
    DecidableEq (Except ε α) := fun a b =>
  match a, b with
  | Except.ok x, Except.ok y =>
    if h : x = y then isTrue (by rw [h]) else isFalse (by simp [h])
  | Except.error x, Except.error y =>
    if h : x = y then isTrue (by rw [h]) else isFalse (by simp [h])
  | Except.ok _, Except.error _ => isFalse (by simp)
  | Except.error _, Except.ok _ => isFalse (by simp)

/-! ## Pixel formats and fourcc codes

Modelled from the spec: the repository's `format.rs` (canonical
`PixelFormat` tags with `From<&[u8;4]>` and `TryInto<[u8;4]>`
conversions) is not under `src/`; only its callers are
(`device.rs` line 61 `PixelFormat::from(&format.fourcc.repr)` and the
`try_into` in `start_stream`).  Per the spec (§4.3): canonical tags map
to platform 4-byte codes via a total function; the reverse mapping is
partial, sending an unrecognized platform code to an `Unknown`/custom
tag; the custom tag has no platform code, which is what makes
`start_stream` able to fail with `UnsupportedFormat`.  A 4-byte fourcc
code is modelled as a `String`. -/
inductive PixelFormat where
  | Gray
  | Rgb
  | Bgr
  | Jpeg
  | Custom (code : String)
deriving DecidableEq, Repr

instance : Inhabited PixelFormat := ⟨PixelFormat.Custom ""⟩

/-- Modelled from the spec: the total tag → platform-code table of
`format.rs` (`TryInto<[u8;4]> for PixelFormat`): every canonical tag has
exactly one code; the custom tag has none, so the conversion fails. -/
def pixfmtToFourcc : PixelFormat → Option String
  | PixelFormat.Gray => some "GREY"
  | PixelFormat.Rgb => some "RGB3"
  | PixelFormat.Bgr => some "BGR3"
  | PixelFormat.Jpeg => some "MJPG"
  | PixelFormat.Custom _ => none

/-- Modelled from the spec: the partial platform-code → tag table of
`format.rs` (`From<&[u8;4]> for PixelFormat`): an unrecognized platform
code maps to the custom tag rather than failing. -/
def fourccToPixfmt (code : String) : PixelFormat :=
  if code = "GREY" then PixelFormat.Gray
  else if code = "RGB3" then PixelFormat.Rgb
  else if code = "BGR3" then PixelFormat.Bgr
  else if code = "MJPG" then PixelFormat.Jpeg
  else PixelFormat.Custom code

/-! ## Stream descriptors

`eye-hal/src/stream.rs`: `Descriptor { width: u32, height: u32, pixfmt,
interval: Duration }`.  The interval is produced in `query_streams` by
`Duration::from_secs_f64(numerator / denominator)` from the platform's
discrete fraction; no claim depends on the float conversion, so the
interval is carried as the exact fraction of seconds. -/

/-- A frame-interval fraction (`v4l::Fraction`): numerator/denominator
seconds per frame. -/
structure Fraction where
  numerator : Nat
  denominator : Nat
deriving DecidableEq, Repr

/-- Image stream description (`Descriptor` in `eye-hal/src/stream.rs`). -/
structure StreamDescriptor where
  width : Nat
  height : Nat
  pixfmt : PixelFormat
  interval : Fraction
deriving DecidableEq, Repr

instance : Inhabited StreamDescriptor :=
  ⟨{ width := 0, height := 0, pixfmt := default, interval := ⟨0, 1⟩ }⟩

/-! ## The platform capture subsystem

The external collaborator (`v4l` crate): enumeration results and call
outcomes consumed by the device code.  Enumerations that the claims
exercise only on their success path are lists; calls whose failure the
code propagates are `Except`. -/

/-- `v4l::framesize::FrameSizeEnum`: a frame size reported by the
platform, either discrete or stepwise. -/
inductive FrameSizeEnum where
  | Discrete (width height : Nat)
  | Stepwise (minWidth maxWidth stepWidth minHeight maxHeight stepHeight : Nat)
deriving DecidableEq, Repr

/-- `v4l::frameinterval::FrameIntervalEnum`: a frame interval reported
by the platform, either a discrete fraction or a stepwise range. -/
inductive FrameIntervalEnum where
  | Discrete (fraction : Fraction)
  | Stepwise (minInterval maxInterval stepInterval : Fraction)
deriving DecidableEq, Repr

/-- One platform-reported pixel format (`v4l::format::Description`):
only its fourcc code matters to the core. -/
structure PlatFormat where
  fourcc : String
deriving DecidableEq, Repr

/-- `v4l::control::Type`: the platform's control type code. -/
inductive ControlType where
  | Integer
  | Boolean
  | Menu
  | Button
  | Integer64
  | CtrlClass
  | String
  | Bitmask
  | IntegerMenu
  | Area
deriving DecidableEq, Repr

/-- `v4l::control::MenuItem`: one platform menu entry. -/
inductive PlatMenuItem where
  | Name (name : String)
  | Value (value : Int)
deriving DecidableEq, Repr

/-- `v4l::control::Description`: a platform control description, with
native field widths `id: u32`, `minimum/maximum/default: i64`,
`step: u64` and a flags bitset. -/
structure PlatControlDesc where
  id : Nat
  name : String
  typ : ControlType
  minimum : Int
  maximum : Int
  step : Nat
  default : Int
  flags : Nat
  items : Option (List (Nat × PlatMenuItem))
deriving DecidableEq, Repr

/-- V4L2 control flag bits (`v4l::control::Flags`). -/
def FLAG_DISABLED : Nat := 0x0001

/-- V4L2 `GRABBED` control flag bit. -/
def FLAG_GRABBED : Nat := 0x0002

/-- V4L2 `READ_ONLY` control flag bit. -/
def FLAG_READ_ONLY : Nat := 0x0004

/-- V4L2 `INACTIVE` control flag bit. -/
def FLAG_INACTIVE : Nat := 0x0010

/-- V4L2 `WRITE_ONLY` control flag bit. -/
def FLAG_WRITE_ONLY : Nat := 0x0040

/-- `v4l::control::Control` as the core uses it in `set_control`: a
plain 32-bit integer control value (`Control::Value(i32)`). -/
inductive PlatControlValue where
  | Value (value : Int)
deriving DecidableEq, Repr

/-- The platform capture subsystem as seen by one device handle: the
enumeration answers and call outcomes the `v4l` crate would return. -/
structure Platform where
  formats : List PlatFormat
  framesizes : String → List FrameSizeEnum
  frameintervals : String → Nat → Nat → List FrameIntervalEnum
  controls : List PlatControlDesc
  setCtrl : Nat → PlatControlValue → Except IoError Unit
  setFormatRes : Nat → Nat → String → Except IoError Unit
  paramsRes : Except IoError Fraction
  setParamsRes : Fraction → Except IoError Unit
  streamNewRes : Except IoError Unit

/-! ## `query_streams` (`device.rs` lines 42–73)

The nested for-loop over formats × frame sizes × frame intervals,
keeping only discrete sizes and discrete intervals and pushing one
descriptor per kept combination, rendered as nested `flatMap`s (the
push order is preserved). -/

/-- `Device::query_streams` for the v4l2 handle: flattens the
platform-reported (format, size, interval) combinations, skipping
non-discrete sizes and intervals. -/
def queryStreams (p : Platform) : List StreamDescriptor :=
  p.formats.flatMap (fun format =>
    (p.framesizes format.fourcc).flatMap (fun framesize =>
      match framesize with
      | FrameSizeEnum.Discrete w h =>
        (p.frameintervals format.fourcc w h).filterMap (fun frameinterval =>
          match frameinterval with
          | FrameIntervalEnum.Discrete fraction =>
            some { width := w, height := h,
                   pixfmt := fourccToPixfmt format.fourcc,
                   interval := fraction }
          | FrameIntervalEnum.Stepwise _ _ _ => none)
      | FrameSizeEnum.Stepwise _ _ _ _ _ _ => []))

/-! ## `preferred_stream` (`device.rs` lines 182–205) -/

/-- The error `preferred_stream` builds when no descriptor was selected
(`io::Error::new(Other, "no stream desciptors available")`, message as
in the source). -/
def noStreamsError : IoError := IoError.other "no stream desciptors available"

/-- `Device::preferred_stream`: starts from `preferred = None`; a
singleton list selects its element; a longer list runs
`for i in 0..streams.len() - 2 { preferred = Some(f(streams[i],
streams[i+1])) }` (each iteration overwrites `preferred`); `None` at
the end becomes the no-streams error. -/
def preferredStream (p : Platform)
    (f : StreamDescriptor → StreamDescriptor → StreamDescriptor) :
    Except IoError StreamDescriptor :=
  let streams := queryStreams p
  let preferred : Option StreamDescriptor :=
    if streams.length = 1 then
      some streams[0]!
    else if streams.length > 1 then
      (List.range (streams.length - 2)).foldl
        (fun _ i => some (f streams[i]! streams[(i + 1)]!)) none
    else
      none
  match preferred with
  | some desc => Except.ok desc
  | none => Except.error noStreamsError

/-! ## The HAL control model

Modelled from the spec: the repository's `control.rs` (HAL `Control`,
`Representation`, `MenuItem`, `Value` and `Flags` types) is not under
`src/`; only its consumer `device.rs` is.  Per the spec (§3):
Representation ∈ {Integer{range, step, default}, Boolean, Menu, Button,
String, Bitmask, Unknown}; Value ∈ {Integer, Boolean, MenuItem,
String}; Flags ⊆ {READ_ONLY, WRITE_ONLY, GRABBED, INACTIVE}, here a
record of four booleans.  Field widths follow the casts in `device.rs`
(`as i64` for range/default, `as u64` for step, `as i32` in
`set_control`): range and default are `Int` (i64 values), step is
`Nat` (a u64 value). -/

/-- HAL menu entry (`control::MenuItem`). -/
inductive MenuItem where
  | String (name : String)
  | Integer (value : Int)
deriving DecidableEq, Repr

/-- HAL control representation (`control::Representation`). -/
inductive Representation where
  | Unknown
  | Integer (range : Int × Int) (step : Nat) (default : Int)
  | Boolean
  | Menu (items : List MenuItem)
  | Button
  | String
  | Bitmask
deriving DecidableEq, Repr

/-- HAL control flags (`control::Flags`), a bitset over four named
flags; `Flags::NONE` is all-false. -/
structure Flags where
  read_only : Bool
  write_only : Bool
  grabbed : Bool
  inactive : Bool
deriving DecidableEq, Repr

/-- `control::Flags::NONE`. -/
def Flags.NONE : Flags :=
  { read_only := false, write_only := false, grabbed := false, inactive := false }

/-- HAL control (`control::Control`). -/
structure HalControl where
  id : Nat
  name : String
  repr : Representation
  flags : Flags
deriving DecidableEq, Repr

/-- HAL control value (`control::Value`). -/
inductive Value where
  | Integer (value : Int)
  | Boolean (value : Bool)
  | MenuItem (item : MenuItem)
  | String (value : String)
deriving DecidableEq, Repr

/-! ## `query_controls` (`device.rs` lines 75–148) -/

/-- The `match control.typ` block of `query_controls`: maps the
platform control type to a `Representation`, starting from `Unknown`
(the wildcard arm leaves it).  Integer and Integer64 controls produce
the Integer representation with `minimum as i64`, `maximum as i64`,
`step as u64` and `default as i64` — the casts are value-preserving on
the platform's native i64/u64 fields. -/
def reprOf (control : PlatControlDesc) : Representation :=
  match control.typ with
  | ControlType.Integer =>
    Representation.Integer (control.minimum, control.maximum) control.step control.default
  | ControlType.Integer64 =>
    Representation.Integer (control.minimum, control.maximum) control.step control.default
  | ControlType.Boolean => Representation.Boolean
  | ControlType.Menu =>
    Representation.Menu
      (match control.items with
       | some plat_items =>
         plat_items.map (fun plat_item =>
           match plat_item.2 with
           | PlatMenuItem.Name name => MenuItem.String name
           | PlatMenuItem.Value value => MenuItem.Integer value)
       | none => [])
  | ControlType.Button => Representation.Button
  | ControlType.String => Representation.String
  | ControlType.Bitmask => Representation.Bitmask
  | _ => Representation.Unknown

/-- The flag-mapping block of `query_controls`: four independent
bitwise tests (`control.flags & F == F`) each set one HAL flag. -/
def halFlagsOf (flags : Nat) : Flags :=
  { read_only := flags &&& FLAG_READ_ONLY = FLAG_READ_ONLY
    write_only := flags &&& FLAG_WRITE_ONLY = FLAG_WRITE_ONLY
    grabbed := flags &&& FLAG_GRABBED = FLAG_GRABBED
    inactive := flags &&& FLAG_INACTIVE = FLAG_INACTIVE }

/-- The loop body of `query_controls` for one kept platform control. -/
def mkControl (control : PlatControlDesc) : HalControl :=
  { id := control.id, name := control.name,
    repr := reprOf control, flags := halFlagsOf control.flags }

/-- `Device::query_controls`: skips (`continue`) any platform control
whose flags carry the permanently-disabled bit, and maps each remaining
one through the representation and flag tables. -/
def queryControls (p : Platform) : List HalControl :=
  p.controls.filterMap (fun control =>
    if control.flags &&& FLAG_DISABLED = FLAG_DISABLED then none
    else some (mkControl control))

/-! ## `set_control` (`device.rs` lines 161–180) -/

/-- The error message `set_control` (and `control`) uses for an
unmappable value variant. -/
def unsupportedControlTypeError : IoError :=
  IoError.other "control type cannot be mapped"

/-- Wrapping cast of an i64 value to i32 (`*val as i32` in Rust). -/
def toI32 (v : Int) : Int :=
  (v + 2 ^ 31) % 2 ^ 32 - 2 ^ 31

/-- `Device::set_control`: an Integer value is sent to the platform as
`Control::Value(*val as i32)`, a Boolean as `Control::Value(0 or 1)`;
any other variant fails with the unsupported-control-type error without
touching the platform.  The control's own representation and flags are
never consulted. -/
def setControl (p : Platform) (id : Nat) (val : Value) : Except IoError Unit :=
  match val with
  | Value.Integer v => p.setCtrl id (PlatControlValue.Value (toI32 v))
  | Value.Boolean v => p.setCtrl id (PlatControlValue.Value (if v then 1 else 0))
  | Value.MenuItem _ => Except.error unsupportedControlTypeError
  | Value.String _ => Except.error unsupportedControlTypeError

/-! ## `start_stream` (`device.rs` lines 207–228)

To express "the failure occurs before any platform call", the embedding
also returns the trace of platform configuration calls made, in order. -/

/-- One platform configuration call issued by `start_stream`. -/
inductive PlatCall where
  | setFormat (width height : Nat) (fourcc : String)
  | getParams
  | setParams (interval : Fraction)
  | streamNew
deriving DecidableEq, Repr

/-- The frame rate `start_stream` computes:
`(1.0 / desc.interval.as_secs_f32()) as u32`.  Modelled as the exact
rational reciprocal truncated to a natural number; no claim depends on
the f32 rounding. -/
def fpsOf (interval : Fraction) : Nat :=
  interval.denominator / interval.numerator

/-- `Device::start_stream`: maps the descriptor's pixel format to a
fourcc (failing with the unsupported-format error before any platform
call), then issues `set_format`, `params`, `set_params` and the
mmap-stream construction in order, propagating the first platform
failure.  The successful stream handle is opaque here (`Unit`). -/
def startStream (p : Platform) (desc : StreamDescriptor) :
    Except IoError Unit × List PlatCall :=
  match pixfmtToFourcc desc.pixfmt with
  | none =>
    (Except.error (IoError.other "failed to map pixelformat to fourcc"), [])
  | some fourcc =>
    match p.setFormatRes desc.width desc.height fourcc with
    | Except.error e =>
      (Except.error e, [PlatCall.setFormat desc.width desc.height fourcc])
    | Except.ok _ =>
      match p.paramsRes with
      | Except.error e =>
        (Except.error e,
         [PlatCall.setFormat desc.width desc.height fourcc, PlatCall.getParams])
      | Except.ok _ =>
        let newInterval : Fraction := ⟨1, fpsOf desc.interval⟩
        match p.setParamsRes newInterval with
        | Except.error e =>
          (Except.error e,
           [PlatCall.setFormat desc.width desc.height fourcc, PlatCall.getParams,
            PlatCall.setParams newInterval])
        | Except.ok _ =>
          match p.streamNewRes with
          | Except.error e =>
            (Except.error e,
             [PlatCall.setFormat desc.width desc.height fourcc, PlatCall.getParams,
              PlatCall.setParams newInterval, PlatCall.streamNew])
          | Except.ok _ =>
            (Except.ok (),
             [PlatCall.setFormat desc.width desc.height fourcc, PlatCall.getParams,
              PlatCall.setParams newInterval, PlatCall.streamNew])

/-! ## `Stream::next` (`eye-hal/src/platform/v4l2/stream.rs` lines 29–39) -/

/-- Metadata of a dequeued platform buffer; the core reads only
`bytesused`. -/
structure BufferMeta where
  bytesused : Nat
deriving DecidableEq, Repr

/-- The outcome of one platform dequeue (`CaptureStream::next`):
an I/O error, no new frame, or a buffer with its metadata.  Buffer
bytes are `Nat` values below 256. -/
inductive DequeueResult where
  | err (e : IoError)
  | noFrame
  | frame (buffer : List Nat) (meta : BufferMeta)
deriving DecidableEq, Repr

/-- `Stream::next` for the v4l2 handle: `Err(e)` becomes
`Some(Err(e.into()))` (the platform error converts unchanged),
`Ok(None)` becomes `None`, and `Ok(Some((buffer, meta)))` becomes
`Some(Ok(view))` where the view is `&buffer[0..meta.bytesused]`
(modelled with `List.take`; the slice requires
`meta.bytesused ≤ buffer.length`). -/
def streamNext (r : DequeueResult) : Option (Except IoError (List Nat)) :=
  match r with
  | DequeueResult.err e => some (Except.error e)
  | DequeueResult.noFrame => none
  | DequeueResult.frame buffer meta =>
    some (Except.ok (buffer.take meta.bytesused))

/-! ## Spec-side characterizations -/

/-- A value representable as a signed 64-bit integer, the normalization
target the spec names for integer control fields. -/
def isI64 (v : Int) : Prop :=
  -(2 ^ 63) ≤ v ∧ v < 2 ^ 63

instance (v : Int) : Decidable (isI64 v) := by
  unfold isI64
  exact instDecidableAnd

/-! ## Concrete platform fixtures -/

/-- A platform with no formats, no controls, and every call
succeeding. -/
def basePlatform : Platform :=
  { formats := [], framesizes := fun _ => [], frameintervals := fun _ _ _ => [],
    controls := [], setCtrl := fun _ _ => Except.ok (),
    setFormatRes := fun _ _ _ => Except.ok (), paramsRes := Except.ok ⟨1, 30⟩,
    setParamsRes := fun _ => Except.ok (), streamNewRes := Except.ok () }

/-- A platform enumerating three RGB descriptors of widths 10, 20, 30. -/
def platThree : Platform :=
  { basePlatform with
    formats := [⟨"RGB3"⟩],
    framesizes := fun _ =>
      [FrameSizeEnum.Discrete 10 10, FrameSizeEnum.Discrete 20 10,
       FrameSizeEnum.Discrete 30 10],
    frameintervals := fun _ _ _ => [FrameIntervalEnum.Discrete ⟨1, 30⟩] }

/-- A platform enumerating two descriptors (widths 10 and 20). -/
def platPair : Platform :=
  { platThree with
    framesizes := fun _ =>
      [FrameSizeEnum.Discrete 10 10, FrameSizeEnum.Discrete 20 10] }

/-- A platform enumerating exactly one descriptor (width 10). -/
def platSingle : Platform :=
  { platThree with framesizes := fun _ => [FrameSizeEnum.Discrete 10 10] }

/-- The spec's "pick wider" comparator: of two descriptors, the one
with the larger width. -/
def pickWider (a b : StreamDescriptor) : StreamDescriptor :=
  if b.width > a.width then b else a

/-- A writable boolean platform control (no flags set). -/
def ctrlBool : PlatControlDesc :=
  { id := 1, name := "bool", typ := ControlType.Boolean, minimum := 0,
    maximum := 1, step := 1, default := 0, flags := 0, items := none }

/-- A platform control marked permanently disabled. -/
def ctrlDisabled : PlatControlDesc :=
  { ctrlBool with id := 2, name := "disabled", flags := FLAG_DISABLED }

/-- An Integer64 platform control whose native u64 step exceeds the
signed 64-bit range. -/
def ctrlBigStep : PlatControlDesc :=
  { id := 3, name := "bigstep", typ := ControlType.Integer64, minimum := 0,
    maximum := 10, step := 2 ^ 63, default := 0, flags := 0, items := none }

/-- An ordinary writable Integer platform control. -/
def ctrlInt : PlatControlDesc :=
  { id := 4, name := "int", typ := ControlType.Integer, minimum := -5,
    maximum := 5, step := 1, default := 0, flags := 0, items := none }

/-- A platform exposing the four control fixtures, accepting every
`set_control` call. -/
def platCtrls : Platform :=
  { basePlatform with controls := [ctrlBool, ctrlDisabled, ctrlBigStep, ctrlInt] }

/-! ## Claim theorems -/

/-- C1: on the three-descriptor list of widths 10, 20, 30 with the
pick-wider comparator, `preferred_stream` returns the width-20
descriptor — the comparison of the widest descriptor and the claimed
fold over every adjacent pair never happen: the loop runs over
`0..len-2` (one pair short) and overwrites instead of accumulating. -/
theorem preferredStream_truncated_fold_bug :
    (queryStreams platThree).map StreamDescriptor.width = [10, 20, 30] ∧
    preferredStream platThree pickWider =
      Except.ok { width := 20, height := 10, pixfmt := PixelFormat.Rgb,
                  interval := ⟨1, 30⟩ } := by
  decide

/-- C2: `preferred_stream` fails with the no-streams error when
`query_streams` enumerates zero descriptors, and returns the lone
descriptor unchanged when it enumerates exactly one. -/
theorem preferredStream_empty_and_singleton (p q : Platform)
    (f : StreamDescriptor → StreamDescriptor → StreamDescriptor)
    (d : StreamDescriptor)
    (hp : queryStreams p = []) (hq : queryStreams q = [d]) :
    preferredStream p f = Except.error noStreamsError ∧
    preferredStream q f = Except.ok d := by
  constructor
  · simp [preferredStream, hp]
  · simp [preferredStream, hq]

/-- Witness for C2 at the empty and singleton fixture platforms. -/
theorem preferredStream_empty_and_singleton_witness :
    preferredStream basePlatform pickWider = Except.error noStreamsError ∧
    preferredStream platSingle pickWider =
      Except.ok { width := 10, height := 10, pixfmt := PixelFormat.Rgb,
                  interval := ⟨1, 30⟩ } :=
  preferredStream_empty_and_singleton basePlatform platSingle pickWider
    { width := 10, height := 10, pixfmt := PixelFormat.Rgb, interval := ⟨1, 30⟩ }
    (by decide) (by decide)

/-- C3: on a descriptor list of length exactly two, `preferred_stream`
fails with the no-streams error for every comparator: the loop range
`0..len-2` is empty, so the comparator is never applied. -/
theorem preferredStream_two_descriptors_fail (p : Platform)
    (f : StreamDescriptor → StreamDescriptor → StreamDescriptor)
    (h : (queryStreams p).length = 2) :
    preferredStream p f = Except.error noStreamsError := by
  simp [preferredStream, h]

/-- Witness for C3 at the two-descriptor fixture platform. -/
theorem preferredStream_two_descriptors_fail_witness :
    preferredStream platPair pickWider = Except.error noStreamsError :=
  preferredStream_two_descriptors_fail platPair pickWider (by decide)

/-- C4 counterexample: the fixture platform's first enumerated control
has the Boolean representation and no flags (writable), yet
`set_control` with a mismatching Integer value succeeds instead of
failing with the unsupported-control-type error. -/
theorem setControl_matching_variant_cex :
    (queryControls platCtrls).head? =
      some { id := 1, name := "bool", repr := Representation.Boolean,
             flags := Flags.NONE } ∧
    setControl platCtrls 1 (Value.Integer 5) = Except.ok () := by
  decide

/-- C4 (amended): the outcome of `set_control` is determined by the
value variant alone, for every platform and every control id — the
control's representation and writability are never consulted.  An
Integer value is forwarded to the platform as the wrapping 32-bit cast
of its i64 value and a Boolean as the 32-bit value 0 or 1, so these
succeed exactly when the platform write succeeds, with a failing
write's error propagated unchanged; a Menu or String value fails with
the unsupported-control-type error without any platform write. -/
theorem setControl_depends_only_on_variant (p : Platform) (id : Nat)
    (i : Int) (b : Bool) (m : MenuItem) (s : String) :
    setControl p id (Value.Integer i) =
      p.setCtrl id (PlatControlValue.Value (toI32 i)) ∧
    setControl p id (Value.Boolean b) =
      p.setCtrl id (PlatControlValue.Value (if b then 1 else 0)) ∧
    setControl p id (Value.MenuItem m) =
      Except.error unsupportedControlTypeError ∧
    setControl p id (Value.String s) =
      Except.error unsupportedControlTypeError :=
  ⟨rfl, rfl, rfl, rfl⟩

/-- C5: every control returned by `query_controls` comes from a
platform control whose flags do not carry the permanently-disabled
bit. -/
theorem queryControls_no_disabled (p : Platform) (c : HalControl)
    (hc : c ∈ queryControls p) :
    ∃ control, control ∈ p.controls ∧
      ¬(control.flags &&& FLAG_DISABLED = FLAG_DISABLED) ∧
      c = mkControl control := by
  simp only [queryControls, List.mem_filterMap] at hc
  obtain ⟨control, hmem, hsome⟩ := hc
  by_cases hdis : control.flags &&& FLAG_DISABLED = FLAG_DISABLED
  · simp [hdis] at hsome
  · simp only [hdis, if_false, Option.some.injEq] at hsome
    exact ⟨control, hmem, hdis, hsome.symm⟩

/-- Witness for C5 at the fixture platform's boolean control. -/
theorem queryControls_no_disabled_witness :
    ∃ control, control ∈ platCtrls.controls ∧
      ¬(control.flags &&& FLAG_DISABLED = FLAG_DISABLED) ∧
      mkControl ctrlBool = mkControl control :=
  queryControls_no_disabled platCtrls (mkControl ctrlBool) (by decide)

/-- C6: a descriptor is enumerated by `query_streams` exactly when some
platform-reported format carries its size as a discrete frame size and
its interval as a discrete frame interval — the flattened cross
product; stepwise/continuous sizes and intervals never contribute, and
no error arises from them (`queryStreams` is a total function into a
list). -/
theorem queryStreams_mem_iff (p : Platform) (d : StreamDescriptor) :
    d ∈ queryStreams p ↔
      ∃ format, format ∈ p.formats ∧
        FrameSizeEnum.Discrete d.width d.height ∈ p.framesizes format.fourcc ∧
        FrameIntervalEnum.Discrete d.interval ∈
          p.frameintervals format.fourcc d.width d.height ∧
        d.pixfmt = fourccToPixfmt format.fourcc := by
  cases d with
  | mk w h pix ivl =>
    constructor
    · intro hmem
      simp only [queryStreams, List.mem_flatMap] at hmem
      obtain ⟨format, hf, hrest⟩ := hmem
      obtain ⟨framesize, hfs, hd⟩ := hrest
      cases framesize with
      | Stepwise a b c e g i => simp at hd
      | Discrete w' h' =>
        obtain ⟨frameinterval, hfi, heq⟩ := List.mem_filterMap.mp hd
        cases frameinterval with
        | Stepwise a b c => simp at heq
        | Discrete frac =>
          simp only [Option.some.injEq, StreamDescriptor.mk.injEq] at heq
          obtain ⟨hw, hh, hpix, hivl⟩ := heq
          subst hw; subst hh; subst hpix; subst hivl
          exact ⟨format, hf, hfs, hfi, rfl⟩
    · rintro ⟨format, hf, hfs, hfi, hpix⟩
      simp only [queryStreams, List.mem_flatMap]
      refine ⟨format, hf, FrameSizeEnum.Discrete w h, hfs,
        List.mem_filterMap.mpr ⟨FrameIntervalEnum.Discrete ivl, hfi, ?_⟩⟩
      simp_all

/-- C7: when the descriptor's pixel-format tag has no platform fourcc
mapping, `start_stream` fails with the unsupported-format error and the
trace of platform configuration calls is empty — no set-format,
get/set-params or stream construction happens. -/
theorem startStream_unsupported_format (p : Platform) (desc : StreamDescriptor)
    (h : pixfmtToFourcc desc.pixfmt = none) :
    startStream p desc =
      (Except.error (IoError.other "failed to map pixelformat to fourcc"), []) := by
  unfold startStream
  rw [h]

/-- Witness for C7 at a descriptor carrying a custom pixel-format tag. -/
theorem startStream_unsupported_format_witness :
    startStream basePlatform
        { width := 10, height := 10, pixfmt := PixelFormat.Custom "ZZZZ",
          interval := ⟨1, 30⟩ } =
      (Except.error (IoError.other "failed to map pixelformat to fourcc"), []) :=
  startStream_unsupported_format basePlatform
    { width := 10, height := 10, pixfmt := PixelFormat.Custom "ZZZZ",
      interval := ⟨1, 30⟩ } rfl

/-- C8: `Stream::next` has exactly the three outcomes fixed by the
platform dequeue result: a platform error is returned as a present
error (unchanged), no new frame is returned as absent, and a dequeued
buffer yields a success whose view has length `bytesused` and agrees
with the buffer on every index below `bytesused`. -/
theorem streamNext_three_outcomes (e : IoError) (buffer : List Nat)
    (meta : BufferMeta) (h : meta.bytesused ≤ buffer.length) :
    streamNext (DequeueResult.err e) = some (Except.error e) ∧
    streamNext DequeueResult.noFrame = none ∧
    ∃ view, streamNext (DequeueResult.frame buffer meta) =
        some (Except.ok view) ∧
      view.length = meta.bytesused ∧
      ∀ i, i < meta.bytesused → view[i]? = buffer[i]? := by
  refine ⟨rfl, rfl, buffer.take meta.bytesused, rfl, ?_, ?_⟩
  · simpa using Nat.min_eq_left h
  · intro i hi
    exact List.getElem?_take_of_lt hi

/-- Witness for C8 at a concrete five-byte buffer with three valid
bytes. -/
theorem streamNext_three_outcomes_witness :
    streamNext (DequeueResult.err (IoError.os 5)) =
      some (Except.error (IoError.os 5)) ∧
    streamNext DequeueResult.noFrame = none ∧
    ∃ view, streamNext (DequeueResult.frame [7, 8, 9, 10, 11] ⟨3⟩) =
        some (Except.ok view) ∧
      view.length = BufferMeta.bytesused ⟨3⟩ ∧
      ∀ i, i < BufferMeta.bytesused ⟨3⟩ → view[i]? = [7, 8, 9, 10, 11][i]? :=
  streamNext_three_outcomes (IoError.os 5) [7, 8, 9, 10, 11] ⟨3⟩ (by decide)

/-- C9: converting a canonical pixel-format tag to its platform fourcc
code and converting that code back yields the original tag. -/
theorem pixfmt_roundtrip (t : PixelFormat) (c : String)
    (h : pixfmtToFourcc t = some c) :
    fourccToPixfmt c = t := by
  cases t <;> simp only [pixfmtToFourcc, Option.some.injEq,
    reduceCtorEq] at h <;> subst h <;> decide

/-- Witness for C9 at the RGB tag. -/
theorem pixfmt_roundtrip_witness :
    fourccToPixfmt "RGB3" = PixelFormat.Rgb :=
  pixfmt_roundtrip PixelFormat.Rgb "RGB3" rfl

/-- C10 counterexample: an Integer64 platform control with the valid
native u64 step `2^63` is enumerated with an Integer representation
whose step value `2^63` is not representable as a signed 64-bit value —
the step field is an unsigned 64-bit value (`as u64` in the source),
not a signed one. -/
theorem queryControls_step_not_signed64_cex :
    ctrlBigStep.step < 2 ^ 64 ∧
    mkControl ctrlBigStep ∈ queryControls platCtrls ∧
    (mkControl ctrlBigStep).repr = Representation.Integer (0, 10) (2 ^ 63) 0 ∧
    ¬ isI64 ((2 ^ 63 : Nat) : Int) := by
  decide

/-- C10 (amended): integer-valued platform controls (Integer or
Integer64) that are enumerated produce the Integer representation whose
range and default are the platform's native signed 64-bit values taken
unchanged and whose step is the platform's native unsigned 64-bit value
taken unchanged. -/
theorem queryControls_integer_normalization (p : Platform)
    (control : PlatControlDesc)
    (hmem : control ∈ p.controls)
    (hdis : ¬(control.flags &&& FLAG_DISABLED = FLAG_DISABLED))
    (ht : control.typ = ControlType.Integer ∨ control.typ = ControlType.Integer64)
    (_hmin : isI64 control.minimum) (_hmax : isI64 control.maximum)
    (_hdef : isI64 control.default) (_hstep : control.step < 2 ^ 64) :
    mkControl control ∈ queryControls p ∧
    (mkControl control).repr =
      Representation.Integer (control.minimum, control.maximum)
        control.step control.default := by
  constructor
  · simp only [queryControls, List.mem_filterMap]
    exact ⟨control, hmem, by simp [hdis]⟩
  · rcases ht with ht | ht <;> simp [mkControl, reprOf, ht]

/-- Witness for C10's amended theorem at the fixture integer control. -/
theorem queryControls_integer_normalization_witness :
    mkControl ctrlInt ∈ queryControls platCtrls ∧
    (mkControl ctrlInt).repr =
      Representation.Integer (ctrlInt.minimum, ctrlInt.maximum)
        ctrlInt.step ctrlInt.default :=
  queryControls_integer_normalization platCtrls ctrlInt (by decide) (by decide)
    (Or.inl rfl) (by decide) (by decide) (by decide) (by decide)

end Eye
